import Mathlib

/-!
# SkiRank daily data-fusion and scoring pipeline — verification development

Shallow embedding of the SkiRank pipeline (scorer, validator, depth
reconciliation, batch-fetch aggregation, persistence writer) together with
proofs of its documented properties.

Modelling conventions:
* Python floats are modelled as exact rationals (`ℚ`); binary floating-point
  rounding error is not modelled.  All properties below concern order and
  branch structure, not float ulps.
* Nullable values (`Optional[float]`, `float | None`) become `Option ℚ`.
* Python's `round(x, 1)` (banker's rounding to one decimal) is modelled
  exactly by `round1` below, built on round-half-to-even.
* Database tables are modelled as in-memory lists of rows; SQL
  `DELETE ... WHERE k` is `List.filter` on the negated key predicate and
  `INSERT` is list append.  Random surrogate UUID primary keys are omitted
  from rows (they carry no data).
-/

namespace SkiRank

/-- Round-half-to-even on rationals: models Python's builtin `round(x)`
(banker's rounding) applied to an exact value. -/
def roundHalfEven (x : ℚ) : ℤ :=
  if x - x.floor < 1/2 then x.floor
  else if 1/2 < x - x.floor then x.floor + 1
  else if x.floor % 2 = 0 then x.floor else x.floor + 1

/-- Python `round(x, 1)`: round to one decimal digit, ties to even. -/
def round1 (x : ℚ) : ℚ := (roundHalfEven (10 * x) : ℚ) / 10

/-- Python's `x or d` idiom on an optional number: `None` and `0` are falsy
and give the default. -/
def pyOr (o : Option ℚ) (d : ℚ) : ℚ :=
  match o with
  | none => d
  | some x => if x = 0 then d else x

/- ──────────────────────────────────────────────────────────────────────────
   Scoring engine — pipeline/scorer.py
   ────────────────────────────────────────────────────────────────────────── -/

/-- Models `CurrentConditions` dataclass from `scorer.py`. -/
structure CurrentConditions where
  snow_depth_cm : Option ℚ
  new_snow_72h_cm : Option ℚ
  temperature_c : Option ℚ
  wind_speed_kmh : Option ℚ
deriving DecidableEq

/-- Models `ForecastDay` dataclass from `scorer.py` (scorer input shape). -/
structure ForecastDay where
  distance_days : ℤ
  snowfall_cm : Option ℚ
  temperature_c : Option ℚ
  wind_speed_kmh : Option ℚ
  confidence : ℚ
deriving DecidableEq

/-- Models `ResortMeta` dataclass from `scorer.py`. -/
structure ResortMeta where
  elevation_summit_m : Option ℤ
  aspect : Option String
  season_start_month : Option ℤ
  season_end_month : Option ℤ
deriving DecidableEq

/-- Models `ScoreResult` dataclass from `scorer.py`. -/
structure ScoreResult where
  score_total : ℚ
  score_base_depth : ℚ
  score_fresh_snow : ℚ
  score_temperature : ℚ
  score_wind : ℚ
  score_forecast : ℚ
deriving DecidableEq

/-- Models `DEFAULT_WEIGHTS` dict from `scorer.py`, as a record of optional entries
(a Python weights dict may omit keys; `dict.get` supplies per-key defaults). -/
structure Weights where
  base_depth : Option ℚ
  fresh_snow : Option ℚ
  temperature : Option ℚ
  wind : Option ℚ
  forecast : Option ℚ
deriving DecidableEq

/-- The default weights 0.25 / 0.35 / 0.20 / 0.10 / 0.10. -/
def DEFAULT_WEIGHTS : Weights :=
  ⟨some (1/4), some (7/20), some (1/5), some (1/10), some (1/10)⟩

/-- Models `HORIZON_MIX.get(horizon_days, (1.0, 0.0))` from `scorer.py`:
horizon ↦ (current_weight, forecast_weight). -/
def HORIZON_MIX (horizon_days : ℤ) : ℚ × ℚ :=
  if horizon_days = 0 then (1, 0)
  else if horizon_days = 3 then (3/5, 2/5)
  else if horizon_days = 7 then (3/10, 7/10)
  else if horizon_days = 14 then (1/10, 9/10)
  else (1, 0)

/-- Models `score_base_depth` from `scorer.py`: depth vs historical average, with the
elevation-band fallback average when no positive historical average exists. -/
def score_base_depth (snow_depth_cm : Option ℚ) (historical_avg_cm : Option ℚ)
    (elevation_m : Option ℤ) : ℚ :=
  match snow_depth_cm with
  | none => 0
  | some depth =>
    let fallback : ℚ :=
      match elevation_m with
      | none => 100
      | some e => if e < 1500 then 60 else if e < 2500 then 120 else 180
    let avg : ℚ :=
      match historical_avg_cm with
      | none => fallback
      | some h => if h ≤ 0 then fallback else h
    min 100 (round1 (depth / avg * 100))

/-- The per-day forecast contribution inside `score_fresh_snow`:
`min(30, snowfall_cm * 2) * confidence * (1 - distance_days/16 * 0.5)`,
skipping days with no snowfall value. -/
def dayForecastPts (day : ForecastDay) : ℚ :=
  match day.snowfall_cm with
  | none => 0
  | some s =>
    min 30 (s * 2) * (day.confidence * (1 - ((day.distance_days : ℚ) / 16) * (1/2)))

/-- Models `score_fresh_snow` from `scorer.py`.  A Python `None` forecast list and an
empty list produce the same result, so the argument is a plain list. -/
def score_fresh_snow (new_snow_72h_cm : Option ℚ) (forecast_days : List ForecastDay) : ℚ :=
  let recent_pts : ℚ :=
    match new_snow_72h_cm with
    | none => 0
    | some s => min 40 (s * (3/2))
  let forecast_pts : ℚ := forecast_days.foldl (fun acc day => acc + dayForecastPts day) 0
  min 100 (round1 (recent_pts + min 60 forecast_pts))

/-- Models `score_temperature` from `scorer.py`: the piecewise step function. -/
def score_temperature (t : Option ℚ) : ℚ :=
  match t with
  | none => 50
  | some temperature_c =>
    if temperature_c > 2 then 0
    else if temperature_c > 0 then 20
    else if temperature_c > -5 then 60
    else if temperature_c > -15 then 100
    else if temperature_c > -25 then 80
    else 50

/-- Models `score_wind` from `scorer.py`. -/
def score_wind (w : Option ℚ) : ℚ :=
  match w with
  | none => 80
  | some wind_speed_kmh =>
    if wind_speed_kmh < 20 then 100
    else if wind_speed_kmh < 40 then 80
    else if wind_speed_kmh < 60 then 50
    else if wind_speed_kmh < 80 then 20
    else 0

/-- Models `score_forecast_confidence` from `scorer.py`: 100 on an empty (or `None`)
window, else the rounded average of the daily confidences times 100. -/
def score_forecast_confidence (forecast_days : List ForecastDay) : ℚ :=
  if forecast_days.isEmpty then 100
  else round1 ((forecast_days.map (fun d => d.confidence)).sum / forecast_days.length * 100)

/-- Models `_is_spring` from `scorer.py` (`month in {3, 4, 5}`; `None` is not spring). -/
def is_spring (current_month : Option ℤ) : Bool :=
  match current_month with
  | none => false
  | some m => m == 3 || m == 4 || m == 5

/-- Models `apply_aspect_elevation_adjustments` from `scorer.py`. -/
def apply_aspect_elevation_adjustments (temp_score base_depth_score : ℚ)
    (meta : ResortMeta) (current_month : Option ℤ) : ℚ × ℚ :=
  let spring := is_spring current_month
  let north_facing : Bool :=
    match meta.aspect with
    | none => false
    | some a => a == "N" || a == "NE" || a == "NW"
  let south_facing : Bool :=
    match meta.aspect with
    | none => false
    | some a => a == "S" || a == "SE" || a == "SW"
  let temp1 : ℚ :=
    if spring then
      if north_facing then min 100 (temp_score * (108/100))
      else if south_facing then min 100 (temp_score * (95/100))
      else temp_score
    else temp_score
  let base1 : ℚ :=
    match meta.elevation_summit_m with
    | none => base_depth_score
    | some summit =>
      if summit > 3000 then min 100 (base_depth_score * (11/10))
      else if summit < 2000 ∧ spring then min 100 (base_depth_score * (9/10))
      else base_depth_score
  (round1 temp1, round1 base1)

/-- Models `compute_score` from `scorer.py`.  A Python `None` forecast list behaves
exactly like `[]`, and `weights=None` (or `{}`) falls back to
`DEFAULT_WEIGHTS`; the horizon filter keeps days with
`distance_days ≤ horizon_days`. -/
def compute_score (current : CurrentConditions) (forecast_days : List ForecastDay)
    (meta : ResortMeta) (horizon_days : ℤ) (weights : Option Weights)
    (historical_avg_cm : Option ℚ) (current_month : Option ℤ) : ScoreResult :=
  let w := weights.getD DEFAULT_WEIGHTS
  let horizon_forecasts := forecast_days.filter (fun d => decide (d.distance_days ≤ horizon_days))
  let s_base := score_base_depth current.snow_depth_cm historical_avg_cm meta.elevation_summit_m
  let s_fresh := score_fresh_snow current.new_snow_72h_cm horizon_forecasts
  let s_temp := score_temperature current.temperature_c
  let s_wind := score_wind current.wind_speed_kmh
  let s_forecast := score_forecast_confidence horizon_forecasts
  let adjusted := apply_aspect_elevation_adjustments s_temp s_base meta current_month
  let mix := HORIZON_MIX horizon_days
  let total :=
    w.base_depth.getD (1/4) * adjusted.2
    + w.fresh_snow.getD (7/20) * s_fresh
    + w.temperature.getD (1/5) * adjusted.1
    + w.wind.getD (1/10) * s_wind
    + w.forecast.getD (1/10) * s_forecast
  let total1 := total * (mix.1 + mix.2 * (s_forecast / 100))
  { score_total := round1 (min 100 (max 0 total1))
    score_base_depth := adjusted.2
    score_fresh_snow := s_fresh
    score_temperature := adjusted.1
    score_wind := s_wind
    score_forecast := s_forecast }

/-- Modelled from the spec, for refinement comparison only: `compute_score` as
the spec describes it, with a supplied custom weights mapping re-normalized to
sum to 1 before the weighted sum is formed.  Everything else is identical to
`compute_score`. -/
def compute_score_spec_renorm (current : CurrentConditions) (forecast_days : List ForecastDay)
    (meta : ResortMeta) (horizon_days : ℤ) (weights : Option Weights)
    (historical_avg_cm : Option ℚ) (current_month : Option ℤ) : ScoreResult :=
  let w := weights.getD DEFAULT_WEIGHTS
  let horizon_forecasts := forecast_days.filter (fun d => decide (d.distance_days ≤ horizon_days))
  let s_base := score_base_depth current.snow_depth_cm historical_avg_cm meta.elevation_summit_m
  let s_fresh := score_fresh_snow current.new_snow_72h_cm horizon_forecasts
  let s_temp := score_temperature current.temperature_c
  let s_wind := score_wind current.wind_speed_kmh
  let s_forecast := score_forecast_confidence horizon_forecasts
  let adjusted := apply_aspect_elevation_adjustments s_temp s_base meta current_month
  let mix := HORIZON_MIX horizon_days
  let wsum :=
    w.base_depth.getD (1/4) + w.fresh_snow.getD (7/20) + w.temperature.getD (1/5)
    + w.wind.getD (1/10) + w.forecast.getD (1/10)
  let total :=
    (w.base_depth.getD (1/4) / wsum) * adjusted.2
    + (w.fresh_snow.getD (7/20) / wsum) * s_fresh
    + (w.temperature.getD (1/5) / wsum) * adjusted.1
    + (w.wind.getD (1/10) / wsum) * s_wind
    + (w.forecast.getD (1/10) / wsum) * s_forecast
  let total1 := total * (mix.1 + mix.2 * (s_forecast / 100))
  { score_total := round1 (min 100 (max 0 total1))
    score_base_depth := adjusted.2
    score_fresh_snow := s_fresh
    score_temperature := adjusted.1
    score_wind := s_wind
    score_forecast := s_forecast }

/- ──────────────────────────────────────────────────────────────────────────
   Quality validator — backend/pipeline/validator.py
   ────────────────────────────────────────────────────────────────────────── -/

/-- The `DataQuality` enum from `validator.py` (`stale` is set later by the
serving layer, never by the pipeline core). -/
inductive DataQuality where
  | verified
  | good
  | suspect
  | unreliable
  | stale
deriving DecidableEq

/-- Models Python float formatting `f"{x:.1f}"` for the nonnegative ratios that
appear in cross-source flag reasons: the value rounded to one decimal, printed
with one digit after the point. -/
def fmt1 (x : ℚ) : String :=
  let n := roundHalfEven (10 * x)
  toString (n / 10) ++ "." ++ toString (n % 10)

/-- Models `validate_depth_seasonal` from `validator.py`.  `fetch_month` is
`fetch_date.month`; `(latitude or 0) > 0` decides the hemisphere. -/
def validate_depth_seasonal (latitude : Option ℚ) (elevation_m : Option ℤ)
    (depth_cm : Option ℚ) (fetch_month : ℤ) : Bool × Option String :=
  match depth_cm with
  | none => (true, none)
  | some depth =>
    if depth ≤ 0 then (true, none)
    else
      let is_northern := latitude.getD 0 > 0
      let off_season : List ℤ :=
        if is_northern then [5, 6, 7, 8, 9, 10] else [11, 12, 1, 2, 3, 4]
      if fetch_month ∈ off_season ∧ depth > 50 then
        (false, some "depth_implausible_offseason")
      else
        match elevation_m with
        | none => (true, none)
        | some e =>
          if e < 1500 then
            if depth > 250 then (false, some "depth_exceeds_elevation_maximum_250cm")
            else (true, none)
          else if e < 2000 then
            if depth > 350 then (false, some "depth_exceeds_elevation_maximum_350cm")
            else (true, none)
          else if e < 2500 then
            if depth > 450 then (false, some "depth_exceeds_elevation_maximum_450cm")
            else (true, none)
          else if e < 3000 then
            if depth > 550 then (false, some "depth_exceeds_elevation_maximum_550cm")
            else (true, none)
          else if e < 9999 then
            if depth > 700 then (false, some "depth_exceeds_elevation_maximum_700cm")
            else (true, none)
          else (true, none)

/-- Models `validate_depth_change` from `validator.py`. -/
def validate_depth_change (previous_depth_cm current_depth_cm snowfall_24h_cm : Option ℚ) :
    Bool × Option String :=
  match previous_depth_cm, current_depth_cm with
  | some prev, some cur =>
    let change := cur - prev
    let snowfall := snowfall_24h_cm.getD 0
    if change > 30 ∧ snowfall < change * (1/2) then
      (false, some "depth_gain_unexplained_by_snowfall")
    else if change < -60 then (false, some "depth_loss_implausibly_large")
    else (true, none)
  | _, _ => (true, none)

/-- Models `validate_cross_source` from `validator.py`: flags when station and model
depths disagree by more than 3× (ratio of max over min), skipped when either
value is missing or zero. -/
def validate_cross_source (station_depth_cm openmeteo_depth_cm : Option ℚ) :
    Bool × Option String :=
  match station_depth_cm, openmeteo_depth_cm with
  | some station, some openmeteo =>
    if station = 0 ∨ openmeteo = 0 then (true, none)
    else
      let ratio := max station openmeteo / min station openmeteo
      if ratio > 3 then
        (false, some ("cross_source_variance_ratio_" ++ fmt1 ratio ++ "x"))
      else (true, none)
  | _, _ => (true, none)

/-- Models `validate_temp_depth_consistency` from `validator.py`. -/
def validate_temp_depth_consistency (depth_cm avg_temp_c : Option ℚ) :
    Bool × Option String :=
  match depth_cm, avg_temp_c with
  | some depth, some avg =>
    if avg > 3 ∧ depth > 150 then
      (false, some "high_depth_inconsistent_with_warm_temps")
    else (true, none)
  | _, _ => (true, none)

/-- Models `score_data_quality` from `validator.py`.  The Python comprehension
`[reason for ok, reason in results if not ok and reason]` keeps a reason only
when the rule failed and the reason is truthy (non-`None`, non-empty). -/
def score_data_quality (validation_results : List (Bool × Option String))
    (depth_source : String) : DataQuality × List String :=
  let flags := validation_results.filterMap (fun r =>
    if r.1 then none
    else
      match r.2 with
      | none => none
      | some s => if s = "" then none else some s)
  let n := flags.length
  let quality :=
    if n = 0 then
      if depth_source = "synoptic_station" then DataQuality.verified else DataQuality.good
    else if n = 1 then DataQuality.suspect
    else DataQuality.unreliable
  (quality, flags)

/-- The fields of the `resort` dict that `run_validation` reads. -/
structure ResortInfo where
  latitude : Option ℚ
  elevation_summit_m : Option ℤ
deriving DecidableEq

/-- Models `run_validation` from `validator.py`: the four rules in order, with the
cross-source rule gated on `depth_source == 'synoptic_station'`, aggregated by
`score_data_quality`. -/
def run_validation (resort : ResortInfo)
    (depth_cm openmeteo_depth_cm previous_depth_cm snowfall_24h_cm avg_temp_c : Option ℚ)
    (depth_source : String) (fetch_month : ℤ) : DataQuality × List String :=
  let results := [
    validate_depth_seasonal resort.latitude resort.elevation_summit_m depth_cm fetch_month,
    validate_depth_change previous_depth_cm depth_cm snowfall_24h_cm,
    validate_cross_source
      (if depth_source = "synoptic_station" then depth_cm else none)
      (if depth_source = "synoptic_station" then openmeteo_depth_cm else none),
    validate_temp_depth_consistency depth_cm avg_temp_c]
  score_data_quality results depth_source

/- ──────────────────────────────────────────────────────────────────────────
   Depth reconciliation and override lifecycle — pipeline/scheduler.py
   ────────────────────────────────────────────────────────────────────────── -/

/-- The `ResortDepthOverride` row fields read and written by `run_pipeline`. -/
structure Override where
  override_depth_cm : ℚ
  cumulative_new_snow_since_cm : Option ℚ
  new_snow_threshold_cm : Option ℚ
  is_active : Bool
deriving DecidableEq

/-- The depth-related outcome of one resort's reconciliation in
`run_pipeline`: the accepted depth, its provenance tag, the preserved
model-only depth, and the `(cumulative_new_snow_since_cm, is_active)` pair
persisted back to the override row (when an active override row existed). -/
structure ReconciledDepth where
  snow_depth_cm : Option ℚ
  depth_source : String
  openmeteo_depth_cm : Option ℚ
  override_update : Option (ℚ × Bool)
deriving DecidableEq

/-- The scheduler's override query `where is_active == True`: an inactive (or
absent) row never reaches the per-resort override step. -/
def select_active (row : Option Override) : Option Override :=
  match row with
  | none => none
  | some o => if o.is_active then some o else none

/-- The depth-reconciliation path of `run_pipeline` (scheduler.py) for one
resort.  The fetcher sets both `snow_depth_cm` and `openmeteo_depth_cm` to the
parsed model depth; a station reading then replaces `snow_depth_cm` only and
tags the source `synoptic_station`; finally an active override either expires
(cumulative new snow reached its threshold — live data kept, row deactivated)
or applies its depth with source `manual_override`. -/
def reconcile_depth (openmeteo_depth_cm : Option ℚ) (station_depth_cm : Option ℚ)
    (override_row : Option Override) (new_snow_24h_cm : Option ℚ) : ReconciledDepth :=
  let afterStation : Option ℚ × String :=
    match station_depth_cm with
    | some s => (some s, "synoptic_station")
    | none => (openmeteo_depth_cm, "open_meteo")
  match select_active override_row with
  | none =>
    { snow_depth_cm := afterStation.1
      depth_source := afterStation.2
      openmeteo_depth_cm := openmeteo_depth_cm
      override_update := none }
  | some ov =>
    let new_cumulative := pyOr ov.cumulative_new_snow_since_cm 0 + pyOr new_snow_24h_cm 0
    let threshold := pyOr ov.new_snow_threshold_cm 20
    if new_cumulative ≥ threshold then
      { snow_depth_cm := afterStation.1
        depth_source := afterStation.2
        openmeteo_depth_cm := openmeteo_depth_cm
        override_update := some (new_cumulative, false) }
    else
      { snow_depth_cm := some ov.override_depth_cm
        depth_source := "manual_override"
        openmeteo_depth_cm := openmeteo_depth_cm
        override_update := some (new_cumulative, true) }

/-- The scheduler's `UPDATE resort_depth_overrides SET cumulative…, is_active`
applied to the stored row. -/
def apply_override_update (o : Override) (u : ℚ × Bool) : Override :=
  { o with cumulative_new_snow_since_cm := some u.1, is_active := u.2 }

/-- Whether the override step of `run_pipeline` applies an override depth this
run: an active row whose incremented cumulative new snow stays below the
threshold. -/
def override_applies (override_row : Option Override) (new_snow_24h_cm : Option ℚ) : Bool :=
  match select_active override_row with
  | none => false
  | some ov =>
    decide (pyOr ov.cumulative_new_snow_since_cm 0 + pyOr new_snow_24h_cm 0
      < pyOr ov.new_snow_threshold_cm 20)

/- ──────────────────────────────────────────────────────────────────────────
   Batch fetch aggregation — backend/pipeline/fetcher.py
   ────────────────────────────────────────────────────────────────────────── -/

/-- Models `PIPELINE_BATCH_SIZE` from `config.py`. -/
def PIPELINE_BATCH_SIZE : ℕ := 50

/-- Structural helper for `chunked`: the fuel is an upper bound on the number
of chunks (the list length suffices when `size > 0`). -/
def chunkedFuel (size : ℕ) : ℕ → List α → List (List α)
  | _, [] => []
  | 0, _ => []
  | fuel + 1, l => l.take size :: chunkedFuel size fuel (l.drop size)

/-- The batch partition `[resorts[i:i+B] for i in range(0, len(resorts), B)]`
from `fetch_all_resorts`. -/
def chunked (size : ℕ) (l : List α) : List (List α) :=
  chunkedFuel size l.length l

/-- One entry of `asyncio.gather(..., return_exceptions=True)` over
`fetch_batch` calls: either an escaped exception or the parsed batch result.
Result items are abstracted to their resort ids (the only field the
aggregation logic reads). -/
inductive BatchResult where
  | exception
  | ok (ids : List ℕ)
deriving DecidableEq

/-- The id-selection behaviour of `_parse_batch_response`: resort ids are
zipped with response items and ids whose item carries an `"error"` key are
skipped (`item_ok` records, per position, the absence of an error key).  Zip
truncation also drops trailing ids when the response is short. -/
def parse_batch_ids (resort_ids : List ℕ) (item_ok : List Bool) : List ℕ :=
  (resort_ids.zip item_ok).filterMap (fun p => if p.2 then some p.1 else none)

/-- The aggregation loops of `fetch_all_resorts`: exception batches mark all
their resorts failed; then every resort of a non-exception batch whose id
never appeared in a successful result is also marked failed.  The NWS
forecast overlay that follows mutates forecast values of existing results
only, so it is irrelevant to the (results, failed_ids) membership modelled
here. -/
def fetch_all_aggregate (batches : List (List ℕ)) (batch_results : List BatchResult) :
    List ℕ × List ℕ :=
  let pairs := batches.zip batch_results
  let firstPass := pairs.foldl
    (fun (st : List ℕ × List ℕ) p =>
      match p.2 with
      | .exception => (st.1, st.2 ++ p.1)
      | .ok ids => (st.1 ++ ids, st.2))
    ([], [])
  let successful_ids := firstPass.1
  let failed := pairs.foldl
    (fun (acc : List ℕ) p =>
      match p.2 with
      | .exception => acc
      | .ok _ => acc ++ p.1.filter (fun id => !(successful_ids.contains id)))
    firstPass.2
  (firstPass.1, failed)

/-- Models `fetch_all_resorts` from `backend/pipeline/fetcher.py`, abstracted over
the per-batch network outcomes (`batch_results`). -/
def fetch_all_resorts (resorts : List ℕ) (batch_results : List BatchResult) :
    List ℕ × List ℕ :=
  fetch_all_aggregate (chunked PIPELINE_BATCH_SIZE resorts) batch_results

/- ──────────────────────────────────────────────────────────────────────────
   Persistence writer — pipeline/writer.py
   Tables are lists of rows; `DELETE WHERE key` is a filter, `INSERT` an
   append.  Random UUID primary keys are omitted (pure surrogate keys);
   dates/timestamps are abstracted to integers.
   ────────────────────────────────────────────────────────────────────────── -/

/-- The forecast fields of `ResortWeatherData.forecasts` copied by the writer. -/
structure ForecastData where
  forecast_date : ℤ
  snowfall_cm : Option ℚ
  temperature_max_c : Option ℚ
  temperature_min_c : Option ℚ
  wind_speed_max_kmh : Option ℚ
  precipitation_prob_pct : Option ℤ
  weather_code : Option ℤ
  confidence_score : ℚ
deriving DecidableEq

/-- The fields of `ResortWeatherData` that `write_weather_snapshots` persists. -/
structure WeatherData where
  resort_id : ℕ
  fetched_at : ℤ
  snow_depth_cm : Option ℚ
  new_snow_24h_cm : Option ℚ
  new_snow_72h_cm : Option ℚ
  temperature_c : Option ℚ
  wind_speed_kmh : Option ℚ
  weather_code : Option ℤ
  forecasts : List ForecastData
deriving DecidableEq

/-- A `weather_snapshots` row as inserted by `write_weather_snapshots`. -/
structure SnapshotRow where
  resort_id : ℕ
  fetched_at : ℤ
  data_date : ℤ
  snow_depth_cm : Option ℚ
  new_snow_24h_cm : Option ℚ
  new_snow_72h_cm : Option ℚ
  temperature_c : Option ℚ
  wind_speed_kmh : Option ℚ
  weather_code : Option ℤ
  source : String
deriving DecidableEq

/-- A `forecast_snapshots` row as inserted by `write_weather_snapshots`. -/
structure ForecastRow where
  resort_id : ℕ
  fetched_at : ℤ
  forecast_date : ℤ
  snowfall_cm : Option ℚ
  temperature_max_c : Option ℚ
  temperature_min_c : Option ℚ
  wind_speed_max_kmh : Option ℚ
  precipitation_prob_pct : Option ℤ
  weather_code : Option ℤ
  confidence_score : ℚ
deriving DecidableEq

/-- A `resort_scores` row as inserted by `write_scores`. -/
structure ScoreRow where
  resort_id : ℕ
  scored_at : ℤ
  horizon_days : ℤ
  score_total : ℚ
  score_base_depth : ℚ
  score_fresh_snow : ℚ
  score_temperature : ℚ
  score_wind : ℚ
  score_forecast : ℚ
deriving DecidableEq

/-- The `WeatherSnapshot(...)` constructed by `write_weather_snapshots`. -/
def mkSnapshotRow (data : WeatherData) (today : ℤ) : SnapshotRow :=
  { resort_id := data.resort_id
    fetched_at := data.fetched_at
    data_date := today
    snow_depth_cm := data.snow_depth_cm
    new_snow_24h_cm := data.new_snow_24h_cm
    new_snow_72h_cm := data.new_snow_72h_cm
    temperature_c := data.temperature_c
    wind_speed_kmh := data.wind_speed_kmh
    weather_code := data.weather_code
    source := "open_meteo" }

/-- The `ForecastSnapshot(...)` constructed by `write_weather_snapshots`. -/
def mkForecastRow (data : WeatherData) (fc : ForecastData) : ForecastRow :=
  { resort_id := data.resort_id
    fetched_at := data.fetched_at
    forecast_date := fc.forecast_date
    snowfall_cm := fc.snowfall_cm
    temperature_max_c := fc.temperature_max_c
    temperature_min_c := fc.temperature_min_c
    wind_speed_max_kmh := fc.wind_speed_max_kmh
    precipitation_prob_pct := fc.precipitation_prob_pct
    weather_code := fc.weather_code
    confidence_score := fc.confidence_score }

/-- The `ResortScore(...)` constructed by `write_scores`. -/
def mkScoreRow (resort_id : ℕ) (scored_at : ℤ) (horizon_days : ℤ)
    (result : ScoreResult) : ScoreRow :=
  { resort_id := resort_id
    scored_at := scored_at
    horizon_days := horizon_days
    score_total := result.score_total
    score_base_depth := result.score_base_depth
    score_fresh_snow := result.score_fresh_snow
    score_temperature := result.score_temperature
    score_wind := result.score_wind
    score_forecast := result.score_forecast }

/-- Models `write_weather_snapshots` from `writer.py`: per data item, replace today's
snapshot row for the resort (delete the `(resort, data_date=today)` rows, then
insert one fresh row) and replace all of the resort's forecast rows. -/
def write_weather_snapshots (snapshots : List SnapshotRow) (forecast_rows : List ForecastRow)
    (weather_data : List WeatherData) (today : ℤ) : List SnapshotRow × List ForecastRow :=
  weather_data.foldl
    (fun st data =>
      (st.1.filter (fun r => !(r.resort_id == data.resort_id && r.data_date == today))
         ++ [mkSnapshotRow data today],
       st.2.filter (fun r => !(r.resort_id == data.resort_id))
         ++ data.forecasts.map (mkForecastRow data)))
    (snapshots, forecast_rows)

/-- Models `write_scores` from `writer.py`: per horizon, replace the
`(resort, horizon)` score row. -/
def write_scores (score_rows : List ScoreRow) (resort_id : ℕ)
    (scores_by_horizon : List (ℤ × ScoreResult)) (scored_at : ℤ) : List ScoreRow :=
  scores_by_horizon.foldl
    (fun st hr =>
      st.filter (fun r => !(r.resort_id == resort_id && r.horizon_days == hr.1))
        ++ [mkScoreRow resort_id scored_at hr.1 hr.2])
    score_rows

/-- Generic shape shared by the three "replace by key" write loops above:
each datum `d` deletes the rows matched by its delete predicate (`del d`,
the SQL `DELETE ... WHERE` key condition) and appends its fresh rows. -/
def replaceFold {ρ δ : Type} (del : δ → ρ → Bool) (rows : δ → List ρ)
    (db : List ρ) (l : List δ) : List ρ :=
  l.foldl (fun st d => st.filter (fun r => !(del d r)) ++ rows d) db

/-- Physically valid scorer forecast-day input: nonnegative snowfall,
confidence in [0,1] (the data model's invariant), and a day offset within the
16-day forecast window. -/
def ValidForecastDay (d : ForecastDay) : Prop :=
  (∀ s, d.snowfall_cm = some s → 0 ≤ s) ∧ 0 ≤ d.confidence ∧ d.confidence ≤ 1
    ∧ 0 ≤ d.distance_days ∧ d.distance_days ≤ 16

/-- The successful results accumulated by the first aggregation loop of
`fetch_all_resorts`: the concatenated ids of all non-exception batches. -/
def okJoin (pairs : List (List ℕ × BatchResult)) : List ℕ :=
  (pairs.filterMap (fun p =>
    match p.2 with
    | .ok ids => some ids
    | .exception => none)).flatten

/-- The failed ids recorded by the first aggregation loop of
`fetch_all_resorts`: all resorts of exception batches, in order. -/
def excJoin (pairs : List (List ℕ × BatchResult)) : List ℕ :=
  (pairs.filterMap (fun p =>
    match p.2 with
    | .exception => some p.1
    | .ok _ => none)).flatten

/-- The failed ids recorded by the second aggregation loop of
`fetch_all_resorts`: resorts of non-exception batches whose id never appeared
in a successful result. -/
def missJoin (successful : List ℕ) (pairs : List (List ℕ × BatchResult)) : List ℕ :=
  (pairs.filterMap (fun p =>
    match p.2 with
    | .exception => none
    | .ok _ => some (p.1.filter (fun id => !(successful.contains id))))).flatten

/- ──────────────────────────────────────────────────────────────────────────
   Theorems
   ────────────────────────────────────────────────────────────────────────── -/

theorem ratFloor_eq_floor (x : ℚ) : x.floor = ⌊x⌋ := by
  rw [Rat.floor_def, Rat.floor_def']

theorem roundHalfEven_def (x : ℚ) : roundHalfEven x =
    if x - ⌊x⌋ < 1/2 then ⌊x⌋
    else if 1/2 < x - ⌊x⌋ then ⌊x⌋ + 1
    else if ⌊x⌋ % 2 = 0 then ⌊x⌋ else ⌊x⌋ + 1 := by
  simp [roundHalfEven, ratFloor_eq_floor]

theorem roundHalfEven_nonneg {x : ℚ} (h : 0 ≤ x) : 0 ≤ roundHalfEven x := by
  rw [roundHalfEven_def]
  have hf : (0:ℤ) ≤ ⌊x⌋ := Int.floor_nonneg.mpr h
  split_ifs <;> omega

theorem roundHalfEven_le {x : ℚ} {n : ℤ} (h : x ≤ n) : roundHalfEven x ≤ n := by
  rw [roundHalfEven_def]
  have hf : ⌊x⌋ ≤ n := by
    have := Int.floor_le_floor h
    simpa using this
  have hfl : (⌊x⌋ : ℚ) ≤ x := Int.floor_le x
  split_ifs with h1 h2 h3
  · exact hf
  · have hlt : (⌊x⌋ : ℚ) < (n : ℚ) := by linarith
    have := Int.cast_lt.mp hlt
    omega
  · exact hf
  · have h1' : 1/2 ≤ x - ⌊x⌋ := not_lt.mp h1
    have hlt : (⌊x⌋ : ℚ) < (n : ℚ) := by linarith
    have := Int.cast_lt.mp hlt
    omega

theorem round1_nonneg {x : ℚ} (h : 0 ≤ x) : 0 ≤ round1 x := by
  unfold round1
  have : (0:ℤ) ≤ roundHalfEven (10 * x) := roundHalfEven_nonneg (by linarith)
  have h' : (0:ℚ) ≤ (roundHalfEven (10 * x) : ℚ) := by exact_mod_cast this
  positivity

theorem round1_le_100 {x : ℚ} (h : x ≤ 100) : round1 x ≤ 100 := by
  have h10 : 10 * x ≤ ((1000 : ℤ) : ℚ) := by push_cast; linarith
  have hb : roundHalfEven (10 * x) ≤ 1000 := roundHalfEven_le h10
  have hb' : ((roundHalfEven (10 * x) : ℤ) : ℚ) ≤ 1000 := by exact_mod_cast hb
  unfold round1
  rw [div_le_iff₀ (by norm_num : (0:ℚ) < 10)]
  linarith

theorem score_base_depth_mem (snow hist : Option ℚ) (elev : Option ℤ)
    (h : ∀ x, snow = some x → 0 ≤ x) :
    0 ≤ score_base_depth snow hist elev ∧ score_base_depth snow hist elev ≤ 100 := by
  cases snow with
  | none => simp [score_base_depth]
  | some d =>
    have hd : 0 ≤ d := h d rfl
    have key : ∀ avg : ℚ, 0 < avg →
        0 ≤ min 100 (round1 (d / avg * 100)) ∧ min 100 (round1 (d / avg * 100)) ≤ 100 := by
      intro avg havg
      exact ⟨le_min (by norm_num) (round1_nonneg (by positivity)), min_le_left _ _⟩
    simp only [score_base_depth]
    have fb_pos : ∀ e : Option ℤ, (0:ℚ) <
        (match e with
         | none => (100:ℚ)
         | some e => if e < 1500 then 60 else if e < 2500 then 120 else 180) := by
      intro e
      cases e with
      | none => norm_num
      | some e => dsimp only; split_ifs <;> norm_num
    cases hist with
    | none =>
      dsimp only
      exact key _ (fb_pos elev)
    | some hv =>
      dsimp only
      by_cases hle : hv ≤ 0
      · rw [if_pos hle]
        exact key _ (fb_pos elev)
      · rw [if_neg hle]
        exact key hv (lt_of_not_le hle)

theorem dayForecastPts_nonneg (d : ForecastDay) (h : ValidForecastDay d) :
    0 ≤ dayForecastPts d := by
  obtain ⟨hs, hc0, _, _, hd16⟩ := h
  cases hsn : d.snowfall_cm with
  | none => simp [dayForecastPts, hsn]
  | some s =>
    have hs' := hs s hsn
    simp only [dayForecastPts, hsn]
    have h1 : (0:ℚ) ≤ min 30 (s * 2) := le_min (by norm_num) (by linarith)
    have hd16' : (d.distance_days : ℚ) ≤ 16 := by exact_mod_cast hd16
    have h2 : (0:ℚ) ≤ 1 - ((d.distance_days : ℚ) / 16) * (1/2) := by linarith
    exact mul_nonneg h1 (mul_nonneg hc0 h2)

theorem foldl_dayForecastPts_nonneg (l : List ForecastDay)
    (hl : ∀ d ∈ l, ValidForecastDay d) :
    ∀ init : ℚ, 0 ≤ init → 0 ≤ l.foldl (fun acc day => acc + dayForecastPts day) init := by
  induction l with
  | nil => intro init h; simpa using h
  | cons d t ih =>
    intro init h
    simp only [List.foldl_cons]
    refine ih (fun x hx => hl x (List.mem_cons_of_mem _ hx)) _ ?_
    have := dayForecastPts_nonneg d (hl d (List.mem_cons_self _ _))
    linarith

theorem score_fresh_snow_mem (n72 : Option ℚ) (fds : List ForecastDay)
    (hn : ∀ x, n72 = some x → 0 ≤ x) (hf : ∀ d ∈ fds, ValidForecastDay d) :
    0 ≤ score_fresh_snow n72 fds ∧ score_fresh_snow n72 fds ≤ 100 := by
  have hrecent : 0 ≤ (match n72 with
      | none => (0:ℚ)
      | some s => min 40 (s * (3/2))) := by
    cases n72 with
    | none => norm_num
    | some s => exact le_min (by norm_num) (by have := hn s rfl; linarith)
  have hpts : 0 ≤ fds.foldl (fun acc day => acc + dayForecastPts day) 0 :=
    foldl_dayForecastPts_nonneg fds hf 0 le_rfl
  constructor
  · exact le_min (by norm_num)
      (round1_nonneg (add_nonneg hrecent (le_min (by norm_num) hpts)))
  · exact min_le_left _ _

theorem score_temperature_mem (t : Option ℚ) :
    0 ≤ score_temperature t ∧ score_temperature t ≤ 100 := by
  cases t with
  | none => norm_num [score_temperature]
  | some v => simp only [score_temperature]; split_ifs <;> norm_num

theorem score_wind_mem (w : Option ℚ) :
    0 ≤ score_wind w ∧ score_wind w ≤ 100 := by
  cases w with
  | none => norm_num [score_wind]
  | some v => simp only [score_wind]; split_ifs <;> norm_num

theorem score_forecast_confidence_mem (fds : List ForecastDay)
    (hc : ∀ d ∈ fds, 0 ≤ d.confidence ∧ d.confidence ≤ 1) :
    0 ≤ score_forecast_confidence fds ∧ score_forecast_confidence fds ≤ 100 := by
  cases fds with
  | nil => simp [score_forecast_confidence]
  | cons d t =>
    simp only [score_forecast_confidence, List.isEmpty_cons, if_neg]
    have hlen : (0:ℚ) < ((d :: t).length : ℚ) := by
      have : 0 < (d :: t).length := Nat.succ_pos _
      exact_mod_cast this
    have hsum0 : 0 ≤ ((d :: t).map (fun x => x.confidence)).sum := by
      apply List.sum_nonneg
      intro a ha
      obtain ⟨x, hx, rfl⟩ := List.mem_map.mp ha
      exact (hc x hx).1
    have hsum1 : ((d :: t).map (fun x => x.confidence)).sum ≤ ((d :: t).length : ℚ) := by
      have := List.sum_le_card_nsmul ((d :: t).map (fun x => x.confidence)) 1
        (fun a ha => by
          obtain ⟨x, hx, rfl⟩ := List.mem_map.mp ha
          exact (hc x hx).2)
      simpa [List.length_map, nsmul_eq_mul] using this
    constructor
    · exact round1_nonneg (by positivity)
    · apply round1_le_100
      have hdiv : ((d :: t).map (fun x => x.confidence)).sum / ((d :: t).length : ℚ) ≤ 1 :=
        (div_le_one hlen).mpr hsum1
      nlinarith

theorem apply_adjustments_mem (t b : ℚ) (meta : ResortMeta) (month : Option ℤ)
    (ht : 0 ≤ t ∧ t ≤ 100) (hb : 0 ≤ b ∧ b ≤ 100) :
    (0 ≤ (apply_aspect_elevation_adjustments t b meta month).1
      ∧ (apply_aspect_elevation_adjustments t b meta month).1 ≤ 100)
    ∧ (0 ≤ (apply_aspect_elevation_adjustments t b meta month).2
      ∧ (apply_aspect_elevation_adjustments t b meta month).2 ≤ 100) := by
  obtain ⟨ht0, ht1⟩ := ht
  obtain ⟨hb0, hb1⟩ := hb
  simp only [apply_aspect_elevation_adjustments]
  constructor
  · constructor
    · apply round1_nonneg
      split_ifs <;>
        first
          | exact le_min (by norm_num) (by positivity)
          | linarith
    · apply round1_le_100
      split_ifs <;>
        first
          | exact min_le_left _ _
          | linarith
  · cases meta.elevation_summit_m with
    | none =>
      dsimp only
      exact ⟨round1_nonneg hb0, round1_le_100 hb1⟩
    | some summit =>
      dsimp only
      constructor
      · apply round1_nonneg
        split_ifs <;>
          first
            | exact le_min (by norm_num) (by positivity)
            | linarith
      · apply round1_le_100
        split_ifs <;>
          first
            | exact min_le_left _ _
            | linarith

/-- C1 (amended): `score_total` lies in [0,100] for every input whatsoever —
the first conjunct is hypothesis-free, since the total is clamped before
rounding — and each of the five sub-scores lies in [0,100] for all physically
valid inputs: nonnegative snow depth and 72h new snow when present, and
forecast days with nonnegative snowfall, confidence in [0,1] and a day offset
in the 16-day window.  (Over arbitrary signed inputs the sub-score claim
fails: see the counterexample.) -/
theorem compute_score_range
    (current : CurrentConditions) (fds : List ForecastDay) (meta : ResortMeta)
    (horizon : ℤ) (weights : Option Weights) (hist : Option ℚ) (month : Option ℤ) :
    (0 ≤ (compute_score current fds meta horizon weights hist month).score_total
      ∧ (compute_score current fds meta horizon weights hist month).score_total ≤ 100)
    ∧ ((∀ x, current.snow_depth_cm = some x → 0 ≤ x) →
       (∀ x, current.new_snow_72h_cm = some x → 0 ≤ x) →
       (∀ d ∈ fds, ValidForecastDay d) →
      (0 ≤ (compute_score current fds meta horizon weights hist month).score_base_depth
        ∧ (compute_score current fds meta horizon weights hist month).score_base_depth ≤ 100)
      ∧ (0 ≤ (compute_score current fds meta horizon weights hist month).score_fresh_snow
        ∧ (compute_score current fds meta horizon weights hist month).score_fresh_snow ≤ 100)
      ∧ (0 ≤ (compute_score current fds meta horizon weights hist month).score_temperature
        ∧ (compute_score current fds meta horizon weights hist month).score_temperature ≤ 100)
      ∧ (0 ≤ (compute_score current fds meta horizon weights hist month).score_wind
        ∧ (compute_score current fds meta horizon weights hist month).score_wind ≤ 100)
      ∧ (0 ≤ (compute_score current fds meta horizon weights hist month).score_forecast
        ∧ (compute_score current fds meta horizon weights hist month).score_forecast ≤ 100)) := by
  constructor
  · simp only [compute_score]
    exact ⟨round1_nonneg (le_min (by norm_num) (le_max_left _ _)),
           round1_le_100 (min_le_left _ _)⟩
  · intro hdepth hsnow hf
    have hbase := score_base_depth_mem current.snow_depth_cm hist meta.elevation_summit_m hdepth
    have hfds' : ∀ d ∈ fds.filter (fun d => decide (d.distance_days ≤ horizon)),
        ValidForecastDay d := fun d hd => hf d (List.mem_of_mem_filter hd)
    have hfresh := score_fresh_snow_mem current.new_snow_72h_cm _ hsnow hfds'
    have htemp := score_temperature_mem current.temperature_c
    have hwind := score_wind_mem current.wind_speed_kmh
    have hconf := score_forecast_confidence_mem
      (fds.filter (fun d => decide (d.distance_days ≤ horizon)))
      (fun d hd => ⟨(hfds' d hd).2.1, (hfds' d hd).2.2.1⟩)
    have hadj := apply_adjustments_mem _ _ meta month htemp hbase
    simp only [compute_score]
    exact ⟨hadj.2, hfresh, hadj.1, hwind, hconf⟩

/-- C1 witness: the theorem's hypothesis-free total bound applied at the
physically invalid negative-depth input, and its sub-score part applied at the
all-null input with the validity hypotheses discharged. -/
theorem compute_score_range_witness :
    (0 ≤ (compute_score ⟨some (-50), none, none, none⟩ [] ⟨none, none, none, none⟩
          0 none none none).score_total
      ∧ (compute_score ⟨some (-50), none, none, none⟩ [] ⟨none, none, none, none⟩
          0 none none none).score_total ≤ 100)
    ∧ (0 ≤ (compute_score ⟨none, none, none, none⟩ [] ⟨none, none, none, none⟩
          0 none none none).score_base_depth
      ∧ (compute_score ⟨none, none, none, none⟩ [] ⟨none, none, none, none⟩
          0 none none none).score_base_depth ≤ 100) :=
  ⟨(compute_score_range ⟨some (-50), none, none, none⟩ [] ⟨none, none, none, none⟩
      0 none none none).1,
   ((compute_score_range ⟨none, none, none, none⟩ [] ⟨none, none, none, none⟩
      0 none none none).2 (by simp) (by simp) (by simp)).1⟩

/-- C1 counterexample: with a (well-typed but physically invalid) negative
snow depth, the base-depth sub-score returned by `compute_score` is −50, which
is outside [0,100]; `min(100, …)` only clamps from above. -/
theorem compute_score_negative_depth_counterexample :
    (compute_score ⟨some (-50), none, none, none⟩ [] ⟨none, none, none, none⟩
        0 none none none).score_base_depth < 0
    ∧ (compute_score ⟨some (-50), none, none, none⟩ [] ⟨none, none, none, none⟩
        0 none none none).score_base_depth = -50 := by
  constructor <;>
    · simp [compute_score, score_base_depth, apply_aspect_elevation_adjustments, is_spring,
        round1, roundHalfEven_def]
      norm_num [Int.fract, min_def]

/-- C5 (amended): a supplied custom weights mapping is used exactly as given
(with the per-key defaults 0.25/0.35/0.20/0.10/0.10 for missing keys) — it is
NOT re-normalized to sum to 1 — and the weighted sum of the five sub-scores is
scaled by `current_weight + forecast_weight × (forecast_confidence / 100)` for
the chosen horizon, then clamped to [0,100] and rounded. -/
theorem compute_score_custom_weights_formula
    (current : CurrentConditions) (fds : List ForecastDay) (meta : ResortMeta)
    (horizon : ℤ) (w : Weights) (hist : Option ℚ) (month : Option ℤ) :
    (compute_score current fds meta horizon (some w) hist month).score_total =
      round1 (min 100 (max 0 (
        (w.base_depth.getD (1/4)
            * (apply_aspect_elevation_adjustments
                (score_temperature current.temperature_c)
                (score_base_depth current.snow_depth_cm hist meta.elevation_summit_m)
                meta month).2
          + w.fresh_snow.getD (7/20)
            * score_fresh_snow current.new_snow_72h_cm
                (fds.filter (fun d => decide (d.distance_days ≤ horizon)))
          + w.temperature.getD (1/5)
            * (apply_aspect_elevation_adjustments
                (score_temperature current.temperature_c)
                (score_base_depth current.snow_depth_cm hist meta.elevation_summit_m)
                meta month).1
          + w.wind.getD (1/10) * score_wind current.wind_speed_kmh
          + w.forecast.getD (1/10)
            * score_forecast_confidence
                (fds.filter (fun d => decide (d.distance_days ≤ horizon))))
        * ((HORIZON_MIX horizon).1
            + (HORIZON_MIX horizon).2
              * (score_forecast_confidence
                  (fds.filter (fun d => decide (d.distance_days ≤ horizon))) / 100))))) := by
  simp only [compute_score, Option.getD_some]

/-- C5 counterexample: with the custom weights mapping assigning 0.1 to every
key (sum 0.5) on the all-null input, `compute_score` returns total 23.0
(weights used as-is), while the spec's re-normalization (0.2 each) would give
46.0 — so the weights are not re-normalized to sum to 1. -/
theorem compute_score_no_renormalization_counterexample :
    (compute_score ⟨none, none, none, none⟩ [] ⟨none, none, none, none⟩ 0
        (some ⟨some (1/10), some (1/10), some (1/10), some (1/10), some (1/10)⟩)
        none none).score_total = 23
    ∧ (compute_score_spec_renorm ⟨none, none, none, none⟩ [] ⟨none, none, none, none⟩ 0
        (some ⟨some (1/10), some (1/10), some (1/10), some (1/10), some (1/10)⟩)
        none none).score_total = 46
    ∧ (23 : ℚ) ≠ 46 := by
  refine ⟨?_, ?_, by norm_num⟩ <;>
    · simp [compute_score, compute_score_spec_renorm, score_base_depth, score_fresh_snow,
        score_temperature, score_wind, score_forecast_confidence,
        apply_aspect_elevation_adjustments, is_spring, HORIZON_MIX, DEFAULT_WEIGHTS,
        round1, roundHalfEven_def]
      norm_num [Int.fract, min_def, max_def]

/-- C6 (amended): the forecast-confidence sub-score of `compute_score` is 100
exactly when no forecast day satisfies `distance_days ≤ horizon_days` (in
particular when the list is empty), and otherwise equals the average of the
confidence values (×100, rounded to one decimal) of exactly the forecast days
with `distance_days ≤ horizon_days`.  At horizon 0 a day-0 entry still
participates, so the sub-score need not be 100 there (see the
counterexample). -/
theorem compute_score_forecast_confidence
    (current : CurrentConditions) (fds : List ForecastDay) (meta : ResortMeta)
    (horizon : ℤ) (weights : Option Weights) (hist : Option ℚ) (month : Option ℤ) :
    ((¬ ∃ d ∈ fds, d.distance_days ≤ horizon) →
      (compute_score current fds meta horizon weights hist month).score_forecast = 100)
    ∧ (∀ _ : fds.filter (fun d => decide (d.distance_days ≤ horizon)) ≠ [],
      (compute_score current fds meta horizon weights hist month).score_forecast =
        round1 (((fds.filter (fun d => decide (d.distance_days ≤ horizon))).map
            (fun d => d.confidence)).sum
          / (fds.filter (fun d => decide (d.distance_days ≤ horizon))).length * 100)) := by
  constructor
  · intro hnone
    have hfil : fds.filter (fun d => decide (d.distance_days ≤ horizon)) = [] := by
      apply List.filter_eq_nil_iff.mpr
      intro d hd
      simp only [decide_eq_true_eq]
      exact fun hle => hnone ⟨d, hd, hle⟩
    simp only [compute_score, hfil, score_forecast_confidence, List.isEmpty_nil, if_true]
  · intro hne
    simp only [compute_score, score_forecast_confidence]
    rw [if_neg (by simpa [List.isEmpty_iff] using hne)]

/-- C6 witness: the theorem applied to a single in-window forecast day of
confidence 0.5 at horizon 3, giving sub-score 50. -/
theorem compute_score_forecast_confidence_witness :
    (compute_score ⟨none, none, none, none⟩ [⟨1, none, none, none, 1/2⟩]
        ⟨none, none, none, none⟩ 3 none none none).score_forecast = 50 := by
  have h := (compute_score_forecast_confidence ⟨none, none, none, none⟩
    [⟨1, none, none, none, 1/2⟩] ⟨none, none, none, none⟩ 3 none none none).2 (by simp)
  rw [h]
  simp only [round1, roundHalfEven_def]
  norm_num [Int.fract]

/-- C6 counterexample: at horizon 0 with a day-0 forecast entry of confidence
0.8, the forecast-confidence sub-score is 80, not 100 — "horizon is 0" alone
does not force 100 (day-0 entries pass the `distance_days ≤ 0` filter). -/
theorem compute_score_forecast_confidence_horizon0_counterexample :
    (compute_score ⟨none, none, none, none⟩ [⟨0, none, none, none, 4/5⟩]
        ⟨none, none, none, none⟩ 0 none none none).score_forecast ≠ 100
    ∧ (compute_score ⟨none, none, none, none⟩ [⟨0, none, none, none, 4/5⟩]
        ⟨none, none, none, none⟩ 0 none none none).score_forecast = 80 := by
  constructor <;>
    · simp [compute_score, score_forecast_confidence, round1, roundHalfEven_def]
      norm_num [Int.fract, min_def]

theorem quality_flags_length (results : List (Bool × Option String))
    (h : ∀ r ∈ results, r.1 = false → ∃ s, r.2 = some s ∧ s ≠ "") :
    (results.filterMap (fun r =>
      if r.1 then none
      else
        match r.2 with
        | none => none
        | some s => if s = "" then none else some s)).length
    = (results.filter (fun r => !r.1)).length := by
  induction results with
  | nil => simp
  | cons r t ih =>
    have ht := ih (fun x hx hf => h x (List.mem_cons_of_mem _ hx) hf)
    by_cases hr : r.1
    · simp [List.filterMap_cons, List.filter_cons, hr, ht]
    · obtain ⟨s, hs, hne⟩ := h r (List.mem_cons_self _ _) (by simpa using hr)
      simp [List.filterMap_cons, List.filter_cons, hr, hs, hne, ht]

/-- C2 (amended): `score_data_quality` implements the exact mapping on the
number of failed rules — 0 failures → `verified` for a station source, else
`good`; exactly 1 failure → `suspect`; 2 or more → `unreliable` — provided
every failed rule result carries a truthy (non-null, non-empty) reason, as all
four built-in rules do.  (Failures with a null reason are ignored by the
aggregation: see the counterexample.) -/
theorem score_data_quality_mapping (results : List (Bool × Option String)) (src : String)
    (h : ∀ r ∈ results, r.1 = false → ∃ s, r.2 = some s ∧ s ≠ "") :
    (score_data_quality results src).1 =
      if (results.filter (fun r => !r.1)).length = 0 then
        (if src = "synoptic_station" then DataQuality.verified else DataQuality.good)
      else if (results.filter (fun r => !r.1)).length = 1 then DataQuality.suspect
      else DataQuality.unreliable := by
  simp only [score_data_quality]
  rw [quality_flags_length results h]

/-- C2 witness: a single failed rule (with its reason) on a station source is
rated `suspect` by the theorem's mapping. -/
theorem score_data_quality_mapping_witness :
    (score_data_quality [(false, some "depth_implausible_offseason")] "synoptic_station").1
      = DataQuality.suspect := by
  have h := score_data_quality_mapping [(false, some "depth_implausible_offseason")]
    "synoptic_station" (by simp)
  rw [h]
  simp

/-- C2 counterexample: a result list with exactly one failed rule whose reason
is `None` is rated `verified` (the aggregation counts truthy reasons, not
failed rules), where the claimed mapping requires `suspect`. -/
theorem score_data_quality_null_reason_counterexample :
    (score_data_quality [(false, none)] "synoptic_station").1 = DataQuality.verified
    ∧ DataQuality.verified ≠ DataQuality.suspect := by
  constructor
  · simp [score_data_quality]
  · decide

/-- C10: each of the four validation rules passes (no flag) whenever one of
its required inputs is `None` — missing depth for the seasonal and
temperature-consistency rules, missing previous or current depth for the
day-over-day rule, missing station or model depth for the cross-source rule —
and consequently `run_validation` on an entirely absent reading yields zero
flags and quality `verified` (station source) or `good` (any other source),
never `suspect` or `unreliable`. -/
theorem validation_rules_null_pass :
    (∀ (lat : Option ℚ) (elev : Option ℤ) (month : ℤ),
        validate_depth_seasonal lat elev none month = (true, none))
    ∧ (∀ cur sf, validate_depth_change none cur sf = (true, none))
    ∧ (∀ prev sf, validate_depth_change prev none sf = (true, none))
    ∧ (∀ om, validate_cross_source none om = (true, none))
    ∧ (∀ st, validate_cross_source st none = (true, none))
    ∧ (∀ d, validate_temp_depth_consistency d none = (true, none))
    ∧ (∀ t, validate_temp_depth_consistency none t = (true, none))
    ∧ (∀ (resort : ResortInfo) (sf : Option ℚ) (src : String) (month : ℤ),
        run_validation resort none none none sf none src month =
          ((if src = "synoptic_station" then DataQuality.verified else DataQuality.good), [])) := by
  refine ⟨?_, ?_, ?_, ?_, ?_, ?_, ?_, ?_⟩
  · intro lat elev month; rfl
  · intro cur sf; rfl
  · intro prev sf; cases prev <;> rfl
  · intro om; rfl
  · intro st; cases st <;> rfl
  · intro d; cases d <;> rfl
  · intro t; rfl
  · intro resort sf src month
    simp [run_validation, validate_depth_seasonal, validate_depth_change,
      validate_cross_source, validate_temp_depth_consistency, score_data_quality]

theorem validate_cross_source_fail_iff (st om : Option ℚ) :
    (validate_cross_source st om).1 = false ↔
      ∃ s m, st = some s ∧ om = some m ∧ s ≠ 0 ∧ m ≠ 0 ∧ max s m / min s m > 3 := by
  cases st with
  | none => simp [validate_cross_source]
  | some s =>
    cases om with
    | none => simp [validate_cross_source]
    | some m =>
      simp only [validate_cross_source]
      by_cases h0 : s = 0 ∨ m = 0
      · rw [if_pos h0]
        simp only [Option.some.injEq]
        constructor
        · intro h; cases h
        · rintro ⟨s', m', rfl, rfl, hs0, hm0, -⟩
          exact absurd h0 (by tauto)
      · rw [if_neg h0]
        push_neg at h0
        by_cases h3 : max s m / min s m > 3
        · rw [if_pos h3]
          simp only [Option.some.injEq, true_iff]
          exact ⟨s, m, rfl, rfl, h0.1, h0.2, h3⟩
        · rw [if_neg h3]
          simp only [Option.some.injEq]
          constructor
          · intro h; cases h
          · rintro ⟨s', m', rfl, rfl, -, -, h3'⟩
            exact absurd h3' h3

theorem validate_cross_source_fail_reason (st om : Option ℚ)
    (h : (validate_cross_source st om).1 = false) :
    (validate_cross_source st om).2 ≠ none := by
  cases st with
  | none => simp [validate_cross_source] at h
  | some s =>
    cases om with
    | none => simp [validate_cross_source] at h
    | some m =>
      simp only [validate_cross_source] at h ⊢
      split_ifs at h ⊢
      simp_all

/-- C7: inside `run_validation`, the cross-source rule fails (and then carries
a flag reason) exactly when the accepted depth's provenance is the station
source, both the accepted (station) depth and the model depth are non-null and
nonzero, and `max/min > 3`; in particular it never fires for `open_meteo` or
`manual_override` provenance. -/
theorem cross_source_flag_iff (depth om : Option ℚ) (src : String) :
    ((validate_cross_source (if src = "synoptic_station" then depth else none)
        (if src = "synoptic_station" then om else none)).1 = false
      ↔ (src = "synoptic_station" ∧ ∃ s m, depth = some s ∧ om = some m
          ∧ s ≠ 0 ∧ m ≠ 0 ∧ max s m / min s m > 3))
    ∧ ((validate_cross_source (if src = "synoptic_station" then depth else none)
        (if src = "synoptic_station" then om else none)).1 = false →
      (validate_cross_source (if src = "synoptic_station" then depth else none)
        (if src = "synoptic_station" then om else none)).2 ≠ none) := by
  refine ⟨?_, validate_cross_source_fail_reason _ _⟩
  by_cases hsrc : src = "synoptic_station"
  · rw [if_pos hsrc, if_pos hsrc, validate_cross_source_fail_iff]
    constructor
    · rintro ⟨s, m, hs, hm, h⟩
      exact ⟨hsrc, s, m, hs, hm, h⟩
    · rintro ⟨-, s, m, hs, hm, h⟩
      exact ⟨s, m, hs, hm, h⟩
  · rw [if_neg hsrc, if_neg hsrc]
    simp [validate_cross_source, hsrc]

/-- C7 witness: station depth 100 vs model depth 10 under station provenance
trips the rule (ratio 10 > 3) and yields a flag reason. -/
theorem cross_source_flag_iff_witness :
    (validate_cross_source
      (if "synoptic_station" = "synoptic_station" then some (100:ℚ) else none)
      (if "synoptic_station" = "synoptic_station" then some (10:ℚ) else none)).2 ≠ none := by
  have h := cross_source_flag_iff (some (100:ℚ)) (some (10:ℚ)) "synoptic_station"
  exact h.2 (h.1.mpr ⟨rfl, 100, 10, rfl, rfl, by norm_num, by norm_num, by
    rw [max_eq_left (by norm_num), min_eq_right (by norm_num)]
    norm_num⟩)

/-- C4: the accepted snow depth follows the precedence
active-and-applying manual override > station reading > model reading, with
the matching provenance tag, and the model-derived depth is always retained
unchanged in `openmeteo_depth_cm` no matter which source wins. -/
theorem reconcile_depth_precedence (om st : Option ℚ) (ovRow : Option Override)
    (n24 : Option ℚ) :
    (reconcile_depth om st ovRow n24).openmeteo_depth_cm = om
    ∧ (∀ ov, select_active ovRow = some ov →
        pyOr ov.cumulative_new_snow_since_cm 0 + pyOr n24 0
            < pyOr ov.new_snow_threshold_cm 20 →
        (reconcile_depth om st ovRow n24).snow_depth_cm = some ov.override_depth_cm
        ∧ (reconcile_depth om st ovRow n24).depth_source = "manual_override")
    ∧ (override_applies ovRow n24 = false →
        (∀ s, st = some s →
          (reconcile_depth om st ovRow n24).snow_depth_cm = some s
          ∧ (reconcile_depth om st ovRow n24).depth_source = "synoptic_station")
        ∧ (st = none →
          (reconcile_depth om st ovRow n24).snow_depth_cm = om
          ∧ (reconcile_depth om st ovRow n24).depth_source = "open_meteo")) := by
  cases hsel : select_active ovRow with
  | none =>
    refine ⟨?_, ?_, ?_⟩
    · cases st <;> simp [reconcile_depth, hsel]
    · intro ov hov
      simp at hov
    · intro _
      constructor
      · rintro s rfl
        simp [reconcile_depth, hsel]
      · rintro rfl
        simp [reconcile_depth, hsel]
  | some ov =>
    by_cases hge : pyOr ov.cumulative_new_snow_since_cm 0 + pyOr n24 0
        ≥ pyOr ov.new_snow_threshold_cm 20
    · refine ⟨?_, ?_, ?_⟩
      · cases st <;> simp [reconcile_depth, hsel, if_pos hge]
      · intro ov' hov' hlt
        cases hov'
        exact absurd hlt (not_lt.mpr hge)
      · intro _
        constructor
        · rintro s rfl
          simp [reconcile_depth, hsel, if_pos hge]
        · rintro rfl
          simp [reconcile_depth, hsel, if_pos hge]
    · refine ⟨?_, ?_, ?_⟩
      · cases st <;> simp [reconcile_depth, hsel, if_neg hge]
      · intro ov' hov' _
        cases hov'
        simp [reconcile_depth, hsel, if_neg hge]
      · intro happ
        rw [override_applies, hsel] at happ
        simp only [decide_eq_false_iff_not, not_lt] at happ
        exact absurd happ (by exact hge)

/-- C4 witness: with model depth 80, station depth 120 and an applying
override of depth 300, the override wins, the provenance is
`manual_override`, and the model depth 80 is retained. -/
theorem reconcile_depth_precedence_witness :
    (reconcile_depth (some 80) (some 120)
        (some ⟨300, some 5, some 20, true⟩) (some 2)).openmeteo_depth_cm = some 80
    ∧ (reconcile_depth (some 80) (some 120)
        (some ⟨300, some 5, some 20, true⟩) (some 2)).snow_depth_cm = some 300
    ∧ (reconcile_depth (some 80) (some 120)
        (some ⟨300, some 5, some 20, true⟩) (some 2)).depth_source = "manual_override" := by
  have h := reconcile_depth_precedence (some 80) (some 120)
    (some ⟨300, some 5, some 20, true⟩) (some 2)
  have h2 := h.2.1 ⟨300, some 5, some 20, true⟩ (by simp [select_active])
    (by norm_num [pyOr])
  exact ⟨h.1, h2.1, h2.2⟩

/-- C3: on a run with an active override row, the cumulative new snow is
incremented by the run's 24h new snow (null treated as 0).  If the result
reaches the threshold (≥, equality included), the persisted row becomes
inactive with the new cumulative value, the override depth is NOT applied
(the resort keeps its station/model depth), and — since only active rows are
selected — every later run with the stored (now inactive) row behaves exactly
as if no override existed.  Otherwise the override stays active, its depth
replaces the accepted depth, and the incremented cumulative value is
persisted. -/
theorem override_lifecycle (ov : Override) (om st n24 om2 st2 w2 : Option ℚ)
    (hact : ov.is_active = true) :
    ((pyOr ov.new_snow_threshold_cm 20
        ≤ pyOr ov.cumulative_new_snow_since_cm 0 + pyOr n24 0) →
      (reconcile_depth om st (some ov) n24).override_update
          = some (pyOr ov.cumulative_new_snow_since_cm 0 + pyOr n24 0, false)
      ∧ (reconcile_depth om st (some ov) n24).snow_depth_cm
          = (match st with | some s => some s | none => om)
      ∧ (reconcile_depth om st (some ov) n24).depth_source ≠ "manual_override"
      ∧ reconcile_depth om2 st2
          (some (apply_override_update ov
            (pyOr ov.cumulative_new_snow_since_cm 0 + pyOr n24 0, false))) w2
        = reconcile_depth om2 st2 none w2)
    ∧ ((pyOr ov.cumulative_new_snow_since_cm 0 + pyOr n24 0
        < pyOr ov.new_snow_threshold_cm 20) →
      (reconcile_depth om st (some ov) n24).override_update
          = some (pyOr ov.cumulative_new_snow_since_cm 0 + pyOr n24 0, true)
      ∧ (reconcile_depth om st (some ov) n24).snow_depth_cm = some ov.override_depth_cm
      ∧ (reconcile_depth om st (some ov) n24).depth_source = "manual_override") := by
  have hsel : select_active (some ov) = some ov := by simp [select_active, hact]
  constructor
  · intro hge
    refine ⟨?_, ?_, ?_, ?_⟩
    · simp [reconcile_depth, hsel, if_pos hge]
    · cases st <;> simp [reconcile_depth, hsel, if_pos hge]
    · cases st <;> simp [reconcile_depth, hsel, if_pos hge]
    · simp [reconcile_depth, select_active, apply_override_update]
  · intro hlt
    have hge : ¬ (pyOr ov.new_snow_threshold_cm 20
        ≤ pyOr ov.cumulative_new_snow_since_cm 0 + pyOr n24 0) := not_le.mpr hlt
    refine ⟨?_, ?_, ?_⟩ <;> simp [reconcile_depth, hsel, if_neg hge]

/-- C3 witness: cumulative 15 + 5 new cm reaches the threshold 20 exactly, so
the override expires this run (persisted as inactive) and the station depth is
kept. -/
theorem override_lifecycle_witness :
    (reconcile_depth (some 80) (some 120)
        (some ⟨300, some 15, some 20, true⟩) (some 5)).override_update = some (20, false)
    ∧ (reconcile_depth (some 80) (some 120)
        (some ⟨300, some 15, some 20, true⟩) (some 5)).snow_depth_cm = some 120
    ∧ (reconcile_depth (some 17) (some 130)
        (some (apply_override_update ⟨300, some 15, some 20, true⟩ (20, false))) (some 1))
        = reconcile_depth (some 17) (some 130) none (some 1) := by
  have h := (override_lifecycle ⟨300, some 15, some 20, true⟩ (some 80) (some 120) (some 5)
    (some 17) (some 130) (some 1) rfl).1 (by norm_num [pyOr])
  refine ⟨?_, ?_, h.2.2.2⟩
  · rw [h.1]
    norm_num [pyOr]
  · exact h.2.1

theorem chunkedFuel_join {α : Type} (size : ℕ) (hsize : 0 < size) :
    ∀ (fuel : ℕ) (l : List α), l.length ≤ fuel → (chunkedFuel size fuel l).flatten = l := by
  intro fuel
  induction fuel with
  | zero =>
    intro l hl
    have : l = [] := List.length_eq_zero.mp (Nat.le_zero.mp hl)
    subst this
    rfl
  | succ n ih =>
    intro l hl
    cases l with
    | nil => rfl
    | cons a t =>
      simp only [chunkedFuel, List.flatten_cons]
      have hlen : ((a :: t).drop size).length ≤ n := by
        rw [List.length_drop]
        simp only [List.length_cons] at hl ⊢
        omega
      rw [ih _ hlen]
      exact List.take_append_drop _ _

theorem chunked_join {α : Type} (size : ℕ) (hsize : 0 < size) (l : List α) :
    (chunked size l).flatten = l :=
  chunkedFuel_join size hsize l.length l le_rfl

theorem fetch_first_pass (pairs : List (List ℕ × BatchResult)) :
    ∀ init : List ℕ × List ℕ,
      pairs.foldl
        (fun (st : List ℕ × List ℕ) p =>
          match p.2 with
          | .exception => (st.1, st.2 ++ p.1)
          | .ok ids => (st.1 ++ ids, st.2)) init
      = (init.1 ++ okJoin pairs, init.2 ++ excJoin pairs) := by
  induction pairs with
  | nil => intro init; simp [okJoin, excJoin]
  | cons p t ih =>
    intro init
    cases hp : p.2 with
    | exception =>
      simp only [List.foldl_cons, hp]
      rw [ih]
      simp [okJoin, excJoin, List.filterMap_cons, hp, List.append_assoc]
    | ok ids =>
      simp only [List.foldl_cons, hp]
      rw [ih]
      simp [okJoin, excJoin, List.filterMap_cons, hp, List.append_assoc]

theorem fetch_second_pass (successful : List ℕ) (pairs : List (List ℕ × BatchResult)) :
    ∀ init : List ℕ,
      pairs.foldl
        (fun (acc : List ℕ) p =>
          match p.2 with
          | .exception => acc
          | .ok _ => acc ++ p.1.filter (fun id => !(successful.contains id))) init
      = init ++ missJoin successful pairs := by
  induction pairs with
  | nil => intro init; simp [missJoin]
  | cons p t ih =>
    intro init
    cases hp : p.2 with
    | exception =>
      simp only [List.foldl_cons, hp]
      rw [ih]
      simp [missJoin, List.filterMap_cons, hp]
    | ok ids =>
      simp only [List.foldl_cons, hp]
      rw [ih]
      simp [missJoin, List.filterMap_cons, hp, List.append_assoc]

theorem fetch_all_aggregate_eq (batches : List (List ℕ)) (results : List BatchResult) :
    fetch_all_aggregate batches results =
      (okJoin (batches.zip results),
       excJoin (batches.zip results)
         ++ missJoin (okJoin (batches.zip results)) (batches.zip results)) := by
  simp only [fetch_all_aggregate]
  rw [fetch_first_pass]
  simp only [List.nil_append]
  rw [fetch_second_pass]

theorem mem_okJoin {pairs : List (List ℕ × BatchResult)} {id : ℕ} :
    id ∈ okJoin pairs ↔ ∃ p ∈ pairs, ∃ ids, p.2 = BatchResult.ok ids ∧ id ∈ ids := by
  constructor
  · intro h
    obtain ⟨l, hl, hid⟩ := List.mem_flatten.mp h
    obtain ⟨p, hp, hmatch⟩ := List.mem_filterMap.mp hl
    cases h2 : p.2 with
    | exception => rw [h2] at hmatch; cases hmatch
    | ok ids =>
      rw [h2] at hmatch
      cases hmatch
      exact ⟨p, hp, _, h2, hid⟩
  · rintro ⟨p, hp, ids, h2, hid⟩
    exact List.mem_flatten.mpr ⟨ids, List.mem_filterMap.mpr ⟨p, hp, by rw [h2]⟩, hid⟩

theorem mem_excJoin {pairs : List (List ℕ × BatchResult)} {id : ℕ} :
    id ∈ excJoin pairs ↔ ∃ p ∈ pairs, p.2 = BatchResult.exception ∧ id ∈ p.1 := by
  constructor
  · intro h
    obtain ⟨l, hl, hid⟩ := List.mem_flatten.mp h
    obtain ⟨p, hp, hmatch⟩ := List.mem_filterMap.mp hl
    cases h2 : p.2 with
    | exception =>
      rw [h2] at hmatch
      cases hmatch
      exact ⟨p, hp, h2, hid⟩
    | ok ids => rw [h2] at hmatch; cases hmatch
  · rintro ⟨p, hp, h2, hid⟩
    exact List.mem_flatten.mpr ⟨p.1, List.mem_filterMap.mpr ⟨p, hp, by rw [h2]⟩, hid⟩

theorem mem_missJoin {successful : List ℕ} {pairs : List (List ℕ × BatchResult)} {id : ℕ} :
    id ∈ missJoin successful pairs ↔
      ∃ p ∈ pairs, (∃ ids, p.2 = BatchResult.ok ids) ∧ id ∈ p.1 ∧ id ∉ successful := by
  constructor
  · intro h
    obtain ⟨l, hl, hid⟩ := List.mem_flatten.mp h
    obtain ⟨p, hp, hmatch⟩ := List.mem_filterMap.mp hl
    cases h2 : p.2 with
    | exception => rw [h2] at hmatch; cases hmatch
    | ok ids =>
      rw [h2] at hmatch
      cases hmatch
      obtain ⟨hid1, hid2⟩ := List.mem_filter.mp hid
      refine ⟨p, hp, ⟨ids, h2⟩, hid1, ?_⟩
      intro hmem
      rw [Bool.not_eq_true', ← Bool.not_eq_true] at hid2
      exact hid2 (List.elem_iff.mpr hmem)
  · rintro ⟨p, hp, ⟨ids, h2⟩, hid1, hid2⟩
    refine List.mem_flatten.mpr ⟨p.1.filter (fun id => !(successful.contains id)),
      List.mem_filterMap.mpr ⟨p, hp, by rw [h2]⟩, ?_⟩
    refine List.mem_filter.mpr ⟨hid1, ?_⟩
    simp only [Bool.not_eq_true']
    exact (Bool.not_eq_true _).mp (fun hc => hid2 (List.elem_iff.mp hc))

/-- C8: for every resort list and every per-batch outcome assignment
(outcomes matched positionally to the batches, each successful outcome's ids
drawn from its own batch, as `_parse_batch_response` guarantees),
`fetch_all_resorts` (i) covers every input id by a successful result or a
failed id, (ii) preserves every successful batch's results even when other
batches raise, and (iii) marks an id failed only if its batch raised or the
id never appeared in a successful result. -/
theorem fetch_all_resorts_partition (resorts : List ℕ) (batch_results : List BatchResult)
    (hlen : (chunked PIPELINE_BATCH_SIZE resorts).length = batch_results.length)
    (hsub : ∀ p ∈ (chunked PIPELINE_BATCH_SIZE resorts).zip batch_results,
      ∀ ids, p.2 = BatchResult.ok ids → ∀ id ∈ ids, id ∈ p.1) :
    (∀ id ∈ resorts,
      id ∈ (fetch_all_resorts resorts batch_results).1
      ∨ id ∈ (fetch_all_resorts resorts batch_results).2)
    ∧ (∀ p ∈ (chunked PIPELINE_BATCH_SIZE resorts).zip batch_results,
        ∀ ids, p.2 = BatchResult.ok ids →
        ∀ id ∈ ids, id ∈ (fetch_all_resorts resorts batch_results).1)
    ∧ (∀ id ∈ (fetch_all_resorts resorts batch_results).2,
        (∃ p ∈ (chunked PIPELINE_BATCH_SIZE resorts).zip batch_results,
          p.2 = BatchResult.exception ∧ id ∈ p.1)
        ∨ id ∉ (fetch_all_resorts resorts batch_results).1)
    ∧ (∀ id ∈ (fetch_all_resorts resorts batch_results).1, id ∈ resorts) := by
  have hB : 0 < PIPELINE_BATCH_SIZE := by norm_num [PIPELINE_BATCH_SIZE]
  have hagg : fetch_all_resorts resorts batch_results =
      (okJoin ((chunked PIPELINE_BATCH_SIZE resorts).zip batch_results),
       excJoin ((chunked PIPELINE_BATCH_SIZE resorts).zip batch_results)
         ++ missJoin (okJoin ((chunked PIPELINE_BATCH_SIZE resorts).zip batch_results))
             ((chunked PIPELINE_BATCH_SIZE resorts).zip batch_results)) := by
    simp only [fetch_all_resorts]
    exact fetch_all_aggregate_eq _ _
  refine ⟨?_, ?_, ?_, ?_⟩
  · intro id hid
    rw [← chunked_join PIPELINE_BATCH_SIZE hB resorts] at hid
    obtain ⟨batch, hbatch, hinb⟩ := List.mem_flatten.mp hid
    obtain ⟨i, hi, hget⟩ := List.getElem_of_mem hbatch
    have hi2 : i < batch_results.length := by omega
    have hiz : i < ((chunked PIPELINE_BATCH_SIZE resorts).zip batch_results).length := by
      rw [List.length_zip]
      omega
    have hgz : ((chunked PIPELINE_BATCH_SIZE resorts).zip batch_results)[i]
        = ((chunked PIPELINE_BATCH_SIZE resorts)[i], batch_results[i]) :=
      List.getElem_zip
    have hpair : ((chunked PIPELINE_BATCH_SIZE resorts)[i], batch_results[i])
        ∈ (chunked PIPELINE_BATCH_SIZE resorts).zip batch_results := by
      rw [← hgz]
      exact List.getElem_mem hiz
    rw [hget] at hpair
    cases hres : batch_results[i] with
    | exception =>
      right
      rw [hagg]
      exact List.mem_append_left _ (mem_excJoin.mpr ⟨(batch, batch_results[i]), hpair,
        by rw [hres], hinb⟩)
    | ok ids =>
      by_cases hmem : id ∈ okJoin ((chunked PIPELINE_BATCH_SIZE resorts).zip batch_results)
      · left
        rw [hagg]
        exact hmem
      · right
        rw [hagg]
        exact List.mem_append_right _ (mem_missJoin.mpr
          ⟨(batch, batch_results[i]), hpair, ⟨ids, by rw [hres]⟩, hinb, hmem⟩)
  · intro p hp ids h2 id hid
    rw [hagg]
    exact mem_okJoin.mpr ⟨p, hp, ids, h2, hid⟩
  · intro id hid
    rw [hagg] at hid ⊢
    rcases List.mem_append.mp hid with hexc | hmiss
    · exact Or.inl (mem_excJoin.mp hexc)
    · exact Or.inr (mem_missJoin.mp hmiss).choose_spec.2.2.2
  · intro id hid
    rw [hagg] at hid
    obtain ⟨p, hp, ids, h2, hin⟩ := mem_okJoin.mp hid
    have hin1 : id ∈ p.1 := hsub p hp ids h2 id hin
    have hb1 : p.1 ∈ chunked PIPELINE_BATCH_SIZE resorts := by
      obtain ⟨b, r, hbr⟩ : ∃ b r, p = (b, r) := ⟨p.1, p.2, rfl⟩
      subst hbr
      exact (List.of_mem_zip hp).1
    rw [← chunked_join PIPELINE_BATCH_SIZE hB resorts]
    exact List.mem_flatten.mpr ⟨p.1, hb1, hin1⟩

/-- C8 witness: one single batch whose parse dropped resort 2 — resorts 1 and
3 succeed, resort 2 is reported failed. -/
theorem fetch_all_resorts_partition_witness :
    (2 ∈ (fetch_all_resorts [1, 2, 3] [BatchResult.ok [1, 3]]).1
      ∨ 2 ∈ (fetch_all_resorts [1, 2, 3] [BatchResult.ok [1, 3]]).2)
    ∧ 1 ∈ (fetch_all_resorts [1, 2, 3] [BatchResult.ok [1, 3]]).1 := by
  have hz : (chunked PIPELINE_BATCH_SIZE [1, 2, 3]).zip [BatchResult.ok [1, 3]]
      = [([1, 2, 3], BatchResult.ok [1, 3])] := by decide
  have h := fetch_all_resorts_partition [1, 2, 3] [BatchResult.ok [1, 3]]
    (by decide)
    (by
      intro p hp ids h2 id hid
      rw [hz] at hp
      have hp' := List.mem_singleton.mp hp
      subst hp'
      cases h2
      fin_cases hid <;> decide)
  refine ⟨h.1 2 (by decide), ?_⟩
  apply h.2.1 ([1, 2, 3], BatchResult.ok [1, 3]) _ [1, 3] rfl 1 (by decide)
  rw [hz]
  exact List.mem_singleton.mpr rfl

theorem replaceFold_decompose {ρ δ : Type} (del : δ → ρ → Bool) (rows : δ → List ρ)
    (l : List δ) :
    ∀ db, replaceFold del rows db l
      = db.filter (fun r => l.all (fun d => !(del d r))) ++ replaceFold del rows [] l := by
  induction l with
  | nil => intro db; simp [replaceFold]
  | cons d t ih =>
    intro db
    have h1 : replaceFold del rows db (d :: t)
        = replaceFold del rows (db.filter (fun r => !(del d r)) ++ rows d) t := rfl
    have h2 : replaceFold del rows [] (d :: t) = replaceFold del rows (rows d) t := by
      simp [replaceFold]
    rw [h1, ih, h2, ih (rows d), List.filter_append, List.filter_filter,
      List.append_assoc]
    congr 1
    apply List.filter_congr
    intro r _
    simp [List.all_cons, Bool.and_comm]

theorem mem_replaceFold {ρ δ : Type} (del : δ → ρ → Bool) (rows : δ → List ρ)
    (l : List δ) :
    ∀ db r, r ∈ replaceFold del rows db l → r ∈ db ∨ ∃ d ∈ l, r ∈ rows d := by
  induction l with
  | nil =>
    intro db r hr
    exact Or.inl hr
  | cons d t ih =>
    intro db r hr
    rcases ih _ r hr with hmem | ⟨d1, hd1, hr1⟩
    · rcases List.mem_append.mp hmem with h1 | h2
      · exact Or.inl (List.mem_of_mem_filter h1)
      · exact Or.inr ⟨d, List.mem_cons_self _ _, h2⟩
    · exact Or.inr ⟨d1, List.mem_cons_of_mem _ hd1, hr1⟩

theorem replaceFold_idem {ρ δ : Type} (del : δ → ρ → Bool) (rows : δ → List ρ)
    (l : List δ) (hself : ∀ d ∈ l, ∀ r ∈ rows d, del d r = true) (db : List ρ) :
    replaceFold del rows (replaceFold del rows db l) l = replaceFold del rows db l := by
  have e1 := replaceFold_decompose del rows l db
  have e2 := replaceFold_decompose del rows l (replaceFold del rows db l)
  have hfilT : (replaceFold del rows [] l).filter
      (fun r => l.all (fun d => !(del d r))) = [] := by
    apply List.filter_eq_nil_iff.mpr
    intro r hr
    rcases mem_replaceFold del rows l [] r hr with h | ⟨d, hd, hr1⟩
    · cases h
    · simp only [List.all_eq_true]
      intro hall
      have h := hall d hd
      rw [hself d hd r hr1] at h
      simp at h
  have hfilF : ((db.filter (fun r => l.all (fun d => !(del d r)))).filter
      (fun r => l.all (fun d => !(del d r))))
      = db.filter (fun r => l.all (fun d => !(del d r))) := by
    rw [List.filter_filter]
    apply List.filter_congr
    intro r _
    rw [Bool.and_self]
  calc replaceFold del rows (replaceFold del rows db l) l
      = (replaceFold del rows db l).filter (fun r => l.all (fun d => !(del d r)))
          ++ replaceFold del rows [] l := e2
    _ = ((db.filter (fun r => l.all (fun d => !(del d r)))
          ++ replaceFold del rows [] l).filter (fun r => l.all (fun d => !(del d r))))
          ++ replaceFold del rows [] l := by rw [← e1]
    _ = (db.filter (fun r => l.all (fun d => !(del d r)))
          ++ replaceFold del rows [] l) := by
        rw [List.filter_append, hfilT, hfilF, List.append_nil]
    _ = replaceFold del rows db l := e1.symm

theorem replaceFold_nil_filter {ρ δ : Type} (del : δ → ρ → Bool) (rows : δ → List ρ)
    (d : δ) :
    ∀ l : List δ, (∀ x ∈ l, ∀ r ∈ rows x, del x r = true) →
    (∀ x ∈ l, x ≠ d → ∀ r ∈ rows x, del d r = false) →
    (∀ x ∈ l, x ≠ d → ∀ r ∈ rows d, del x r = false) →
    l.Nodup → d ∈ l →
    (replaceFold del rows [] l).filter (fun r => del d r) = rows d := by
  intro l
  induction l with
  | nil =>
    intro _ _ _ _ hd
    cases hd
  | cons d1 t ih =>
    intro hself hdisj hkeep hnd hd
    have hT : replaceFold del rows [] (d1 :: t) = replaceFold del rows (rows d1) t := by
      simp [replaceFold]
    rw [hT, replaceFold_decompose del rows t (rows d1), List.filter_append]
    by_cases hdd : d1 = d
    · subst hdd
      have hnott : d1 ∉ t := (List.nodup_cons.mp hnd).1
      have hall : (rows d1).filter (fun r => t.all (fun x => !(del x r))) = rows d1 := by
        apply List.filter_eq_self.mpr
        intro r hr
        apply List.all_eq_true.mpr
        intro x hx
        have hne : x ≠ d1 := fun he => hnott (he ▸ hx)
        rw [hkeep x (List.mem_cons_of_mem _ hx) hne r hr]
        rfl
      have h2 : (rows d1).filter (fun r => del d1 r) = rows d1 :=
        List.filter_eq_self.mpr (fun r hr => hself d1 (List.mem_cons_self _ _) r hr)
      have h3 : (replaceFold del rows [] t).filter (fun r => del d1 r) = [] := by
        apply List.filter_eq_nil_iff.mpr
        intro r hr
        rcases mem_replaceFold del rows t [] r hr with h | ⟨x, hx, hr1⟩
        · cases h
        · have hne : x ≠ d1 := fun he => hnott (he ▸ hx)
          rw [hdisj x (List.mem_cons_of_mem _ hx) hne r hr1]
          simp
      rw [hall, h2, h3, List.append_nil]
    · have hdt : d ∈ t := by
        rcases List.mem_cons.mp hd with he | h
        · exact absurd he.symm hdd
        · exact h
      have h1 : ((rows d1).filter (fun r => t.all (fun x => !(del x r)))).filter
          (fun r => del d r) = [] := by
        apply List.filter_eq_nil_iff.mpr
        intro r hr
        have hr1 : r ∈ rows d1 := List.mem_of_mem_filter hr
        rw [hdisj d1 (List.mem_cons_self _ _) hdd r hr1]
        simp
      rw [h1, List.nil_append]
      exact ih (fun x hx => hself x (List.mem_cons_of_mem _ hx))
        (fun x hx => hdisj x (List.mem_cons_of_mem _ hx))
        (fun x hx => hkeep x (List.mem_cons_of_mem _ hx))
        (List.nodup_cons.mp hnd).2 hdt

theorem replaceFold_filter_key {ρ δ : Type} (del : δ → ρ → Bool) (rows : δ → List ρ)
    (l : List δ) (d : δ) (db : List ρ)
    (hself : ∀ x ∈ l, ∀ r ∈ rows x, del x r = true)
    (hdisj : ∀ x ∈ l, x ≠ d → ∀ r ∈ rows x, del d r = false)
    (hkeep : ∀ x ∈ l, x ≠ d → ∀ r ∈ rows d, del x r = false)
    (hnd : l.Nodup) (hd : d ∈ l) :
    (replaceFold del rows db l).filter (fun r => del d r) = rows d := by
  rw [replaceFold_decompose del rows l db, List.filter_append]
  have h1 : (db.filter (fun r => l.all (fun x => !(del x r)))).filter
      (fun r => del d r) = [] := by
    apply List.filter_eq_nil_iff.mpr
    intro r hr
    have hall := (List.mem_filter.mp hr).2
    have h := List.all_eq_true.mp hall d hd
    simp only [Bool.not_eq_true'] at h
    simp [h]
  rw [h1, List.nil_append]
  exact replaceFold_nil_filter del rows d l hself hdisj hkeep hnd hd

theorem write_weather_snapshots_eq (snapshots : List SnapshotRow)
    (forecast_rows : List ForecastRow) (weather_data : List WeatherData) (today : ℤ) :
    write_weather_snapshots snapshots forecast_rows weather_data today
      = (replaceFold (fun d r => r.resort_id == d.resort_id && r.data_date == today)
           (fun d => [mkSnapshotRow d today]) snapshots weather_data,
         replaceFold (fun d r => r.resort_id == d.resort_id)
           (fun d => d.forecasts.map (mkForecastRow d)) forecast_rows weather_data) := by
  induction weather_data generalizing snapshots forecast_rows with
  | nil => rfl
  | cons d t ih => exact ih _ _

theorem write_scores_eq (score_rows : List ScoreRow) (resort_id : ℕ)
    (scores_by_horizon : List (ℤ × ScoreResult)) (scored_at : ℤ) :
    write_scores score_rows resort_id scores_by_horizon scored_at
      = replaceFold (fun hr r => r.resort_id == resort_id && r.horizon_days == hr.1)
          (fun hr => [mkScoreRow resort_id scored_at hr.1 hr.2])
          score_rows scores_by_horizon := rfl

/-- C9: the write step is idempotent per key under the delete-then-insert
replace semantics — running it twice on identical input leaves the stores
exactly as one run does — and, when the input carries each resort (resp.
horizon) once, the resulting store holds exactly one row per
(resort, day) snapshot key and per (resort, horizon) score key, equal to the
freshly built row. -/
theorem write_replace_idempotent
    (snapshots : List SnapshotRow) (forecast_rows : List ForecastRow)
    (weather_data : List WeatherData) (today : ℤ)
    (score_rows : List ScoreRow) (resort_id : ℕ)
    (scores_by_horizon : List (ℤ × ScoreResult)) (scored_at : ℤ)
    (hnodup : (weather_data.map (fun d => d.resort_id)).Nodup)
    (hhor : (scores_by_horizon.map (fun hr => hr.1)).Nodup) :
    write_weather_snapshots
        (write_weather_snapshots snapshots forecast_rows weather_data today).1
        (write_weather_snapshots snapshots forecast_rows weather_data today).2
        weather_data today
      = write_weather_snapshots snapshots forecast_rows weather_data today
    ∧ write_scores (write_scores score_rows resort_id scores_by_horizon scored_at)
        resort_id scores_by_horizon scored_at
      = write_scores score_rows resort_id scores_by_horizon scored_at
    ∧ (∀ d ∈ weather_data,
        (write_weather_snapshots snapshots forecast_rows weather_data today).1.filter
            (fun r => r.resort_id == d.resort_id && r.data_date == today)
          = [mkSnapshotRow d today])
    ∧ (∀ hr ∈ scores_by_horizon,
        (write_scores score_rows resort_id scores_by_horizon scored_at).filter
            (fun r => r.resort_id == resort_id && r.horizon_days == hr.1)
          = [mkScoreRow resort_id scored_at hr.1 hr.2]) := by
  have hinj : ∀ x ∈ weather_data, ∀ y ∈ weather_data,
      x.resort_id = y.resort_id → x = y := by
    intro x hx y hy hxy
    exact List.inj_on_of_nodup_map hnodup hx hy hxy
  have hinj2 : ∀ x ∈ scores_by_horizon, ∀ y ∈ scores_by_horizon,
      x.1 = y.1 → x = y := by
    intro x hx y hy hxy
    exact List.inj_on_of_nodup_map hhor hx hy hxy
  have hself1 : ∀ d ∈ weather_data, ∀ r ∈ [mkSnapshotRow d today],
      (r.resort_id == d.resort_id && r.data_date == today) = true := by
    intro d _ r hr
    rw [List.mem_singleton.mp hr]
    simp [mkSnapshotRow]
  have hself2 : ∀ d ∈ weather_data, ∀ r ∈ d.forecasts.map (mkForecastRow d),
      (r.resort_id == d.resort_id) = true := by
    intro d _ r hr
    obtain ⟨fc, _, rfl⟩ := List.mem_map.mp hr
    simp [mkForecastRow]
  have hself3 : ∀ hr ∈ scores_by_horizon, ∀ r ∈ [mkScoreRow resort_id scored_at hr.1 hr.2],
      (r.resort_id == resort_id && r.horizon_days == hr.1) = true := by
    intro hr _ r hrr
    rw [List.mem_singleton.mp hrr]
    simp [mkScoreRow]
  have hwe := write_weather_snapshots_eq snapshots forecast_rows weather_data today
  refine ⟨?_, ?_, ?_, ?_⟩
  · rw [write_weather_snapshots_eq
      (write_weather_snapshots snapshots forecast_rows weather_data today).1
      (write_weather_snapshots snapshots forecast_rows weather_data today).2
      weather_data today, hwe]
    exact Prod.ext (replaceFold_idem _ _ _ hself1 _) (replaceFold_idem _ _ _ hself2 _)
  · rw [write_scores_eq (write_scores score_rows resort_id scores_by_horizon scored_at)
      resort_id scores_by_horizon scored_at, write_scores_eq]
    exact replaceFold_idem _ _ _ hself3 _
  · intro d hd
    rw [hwe]
    apply replaceFold_filter_key _ _ _ _ _ hself1
    · intro x hx hne r hr
      rw [List.mem_singleton.mp hr]
      have hrid : x.resort_id ≠ d.resort_id := fun he => hne (hinj x hx d hd he)
      simp [mkSnapshotRow, hrid]
    · intro x hx hne r hr
      rw [List.mem_singleton.mp hr]
      have hrid : d.resort_id ≠ x.resort_id := fun he => hne ((hinj x hx d hd he.symm))
      simp [mkSnapshotRow, hrid]
    · exact hnodup.of_map
    · exact hd
  · intro hr hhr
    rw [write_scores_eq]
    apply replaceFold_filter_key _ _ _ _ _ hself3
    · intro x hx hne r hrr
      rw [List.mem_singleton.mp hrr]
      have hh : x.1 ≠ hr.1 := fun he => hne (hinj2 x hx hr hhr he)
      simp [mkScoreRow, hh]
    · intro x hx hne r hrr
      rw [List.mem_singleton.mp hrr]
      have hh : hr.1 ≠ x.1 := fun he => hne (hinj2 x hx hr hhr he.symm)
      simp [mkScoreRow, hh]
    · exact hhor.of_map
    · exact hhr

/-- C9 witness: the theorem applied to a one-resort, one-horizon write onto
empty stores. -/
theorem write_replace_idempotent_witness :
    write_scores (write_scores [] 5 [(0, ⟨0, 0, 0, 0, 0, 0⟩)] 7) 5
        [(0, ⟨0, 0, 0, 0, 0, 0⟩)] 7
      = write_scores [] 5 [(0, ⟨0, 0, 0, 0, 0, 0⟩)] 7
    ∧ (write_scores [] 5 [(0, ⟨0, 0, 0, 0, 0, 0⟩)] 7).filter
        (fun r => r.resort_id == 5 && r.horizon_days == (0:ℤ))
      = [mkScoreRow 5 7 0 ⟨0, 0, 0, 0, 0, 0⟩] := by
  have h := write_replace_idempotent [] [] [] 0 [] 5 [(0, ⟨0, 0, 0, 0, 0, 0⟩)] 7
    (by simp) (by simp)
  exact ⟨h.2.1, h.2.2.2 (0, ⟨0, 0, 0, 0, 0, 0⟩) (List.mem_singleton.mpr rfl)⟩

end SkiRank
